import Mathlib

/-!
Shallow embedding of the Open-meeting device firmware
(`src/device/src/api_client.cpp`, `src/device/src/ui_manager.cpp`,
`src/device/src/main.cpp`) and verification of its specification claims.

Modelling conventions:
* The JSON codec (ArduinoJson) is external; response bodies are modelled as
  an already-deserialised `Json` tree (`none` for a deserialisation error).
  A missing object key behaves as `null`, exactly as `obj["key"]` does.
* Arduino `String` is Lean `String`; default-constructed strings are `""`.
* C++ `int` fields are `Int`; counters and millisecond clocks are `Nat`
  (the device clock is monotone within the modelled horizon).
* Fixed arrays `Booking upcomingBookings[3]` are `Fin 3 → Booking`;
  slots the code never writes hold the default (invalid) booking.
* Each stateful routine of `main.cpp` becomes an explicit function from the
  current global state (a `MainState`) and its inputs to the next state,
  together with the externally visible actions it performs.
-/

/-- JSON value as seen through the ArduinoJson accessors used by the code. -/
inductive Json where
  | null
  | bool (b : Bool)
  | num (n : Int)
  | str (s : String)
  | arr (xs : List Json)
  | obj (fields : List (String × Json))
deriving Repr

/-- Lookup `j["key"]`: first binding wins, anything else (including a
non-object receiver) is `null`, as in ArduinoJson. -/
def Json.get (j : Json) (key : String) : Json :=
  match j with
  | .obj fields =>
    match fields.find? (fun kv => kv.1 == key) with
    | some kv => kv.2
    | none => .null
  | _ => .null

/-- `variant.isNull()`: true for `null` (and for a missing key, which reads
as `null`). -/
def Json.isNull : Json → Bool
  | .null => true
  | _ => false

/-- `variant.as<String>()`: strings pass through, `null`/missing read as the
empty string (the code relies on this to detect absent ids). -/
def Json.asString : Json → String
  | .str s => s
  | .num n => toString n
  | .bool b => if b then "true" else "false"
  | _ => ""

/-- `variant | default` for integers. -/
def Json.asIntOr (j : Json) (d : Int) : Int :=
  match j with
  | .num n => n
  | _ => d

/-- `variant | default` for booleans. -/
def Json.asBoolOr (j : Json) (d : Bool) : Bool :=
  match j with
  | .bool b => b
  | _ => d

/-- Conversion to `JsonArray`: a non-array converts to the null array,
whose size is 0. -/
def Json.asArray : Json → List Json
  | .arr xs => xs
  | _ => []

/-- `Booking` struct of `api_client.h`. -/
structure Booking where
  id : String
  title : String
  startTime : String
  endTime : String
  isDeviceBooking : Bool
  isValid : Bool
deriving Repr, DecidableEq

/-- Default-constructed `Booking` (strings empty, flags false). -/
def emptyBooking : Booking :=
  { id := "", title := "", startTime := "", endTime := "",
    isDeviceBooking := false, isValid := false }

/-- `Room` struct of `api_client.h`; `quickBookDurations` keeps all four
slots of the C++ `int[4]`. -/
structure Room where
  id : String
  name : String
  capacity : Int
  floor : String
  quickBookDurations : List Int
  quickBookDurationCount : Nat
  isValid : Bool
deriving Repr, DecidableEq

/-- The fixed fallback durations written by `parseRoom` before parsing. -/
def defaultDurations : List Int := [30, 60, 90, 120]

/-- `ApiClient::parseBooking` (`api_client.cpp:62`): fields are read as
strings, validity means a non-empty id; a null object yields the default
booking. -/
def parseBooking (j : Json) : Booking :=
  match j with
  | .obj _ =>
    let id := (j.get "id").asString
    { id := id
      title := (j.get "title").asString
      startTime := (j.get "startTime").asString
      endTime := (j.get "endTime").asString
      isDeviceBooking := (j.get "isDeviceBooking").asBoolOr false
      isValid := id.length > 0 }
  | _ => emptyBooking

/-- `ApiClient::parseRoom` (`api_client.cpp:80`): starts from the default
durations with count 4; when a `quickBookDurations` value is present (not
null) the count is reset to 0 and up to four entries overwrite the slots in
order, counting each one written. -/
def parseRoom (j : Json) : Room :=
  match j with
  | .obj _ =>
    let id := (j.get "id").asString
    let room : Room :=
      { id := id
        name := (j.get "name").asString
        capacity := (j.get "capacity").asIntOr 0
        floor := (j.get "floor").asString
        quickBookDurations := defaultDurations
        quickBookDurationCount := 4
        isValid := id.length > 0 }
    if !(j.get "quickBookDurations").isNull then
      let durationsArr := (j.get "quickBookDurations").asArray
      let written := (durationsArr.take 4).map (fun v => v.asIntOr 30)
      { room with
          quickBookDurations := written ++ defaultDurations.drop written.length
          quickBookDurationCount := written.length }
    else room
  | _ =>
    { id := "", name := "", capacity := 0, floor := ""
      quickBookDurations := defaultDurations
      quickBookDurationCount := 4
      isValid := false }

/-- `RoomStatus` struct of `api_client.h`. -/
structure RoomStatus where
  room : Room
  isAvailable : Bool
  currentBooking : Booking
  upcomingBookings : Fin 3 → Booking
  upcomingCount : Nat
  isValid : Bool
  errorMessage : String

/-- Default `RoomStatus` as `getRoomStatus` initialises it before any
parsing (invalid, zero upcoming, empty messages). -/
def emptyStatus : RoomStatus :=
  { room := parseRoom .null
    isAvailable := false
    currentBooking := emptyBooking
    upcomingBookings := fun _ => emptyBooking
    upcomingCount := 0
    isValid := false
    errorMessage := "" }

/-- Stored client configuration (`ApiClient::_apiUrl`, `_deviceToken`). -/
structure ApiConfig where
  apiUrl : String
  deviceToken : String
deriving Repr, DecidableEq

/-- `ApiClient::isConfigured` (`api_client.h:73`). -/
def isConfigured (cfg : ApiConfig) : Bool :=
  cfg.apiUrl.length > 0 && cfg.deviceToken.length > 0

/-- Response body of one HTTP exchange, as the codec hands it over: the raw
string length and the deserialisation outcome (`none` = parse error). -/
structure HttpBody where
  len : Nat
  parsed : Option Json

/-- Outcome of one HTTP round trip as observed by `makeRequest`: either a
transport error (`httpCode <= 0`, including timeout) or a response with its
status code and body. -/
inductive HttpOutcome where
  | transportError
  | response (code : Int) (body : HttpBody)

/-- `ApiClient::makeRequest` (`api_client.cpp:18`): returns the body only
for a configured client and a 2xx response; every other case returns the
empty string, modelled as `none`. -/
def makeRequest (cfg : ApiConfig) (o : HttpOutcome) : Option HttpBody :=
  if !isConfigured cfg then none
  else
    match o with
    | .transportError => none
    | .response code body =>
      if 200 ≤ code && code < 300 then some body else none

/-- `ApiClient::getRoomStatus` (`api_client.cpp:115`): empty response maps
to the generic connect error, a parse error to the invalid-response error,
an explicit `error` field is surfaced verbatim; otherwise the room,
availability, optional current booking and the first three upcoming
bookings are parsed, counting the valid ones, and `isValid` is copied from
the parsed room. -/
def getRoomStatus (cfg : ApiConfig) (o : HttpOutcome) : RoomStatus :=
  match makeRequest cfg o with
  | none => { emptyStatus with errorMessage := "Failed to connect to server" }
  | some body =>
    if body.len = 0 then
      { emptyStatus with errorMessage := "Failed to connect to server" }
    else
      match body.parsed with
      | none => { emptyStatus with errorMessage := "Invalid response from server" }
      | some doc =>
        if !(doc.get "error").isNull then
          { emptyStatus with errorMessage := (doc.get "error").asString }
        else
          let room := parseRoom (doc.get "room")
          let currentBooking :=
            if !(doc.get "currentBooking").isNull then
              parseBooking (doc.get "currentBooking")
            else emptyBooking
          let upcomingArr := (doc.get "upcomingBookings").asArray
          let parsedUpcoming := (upcomingArr.take 3).map parseBooking
          { room := room
            isAvailable := (doc.get "isAvailable").asBoolOr false
            currentBooking := currentBooking
            upcomingBookings := fun i => parsedUpcoming.getD i.val emptyBooking
            upcomingCount := parsedUpcoming.countP (fun b => b.isValid)
            isValid := room.isValid
            errorMessage := "" }

/-- `roomStatusesAreEqual` (`main.cpp:1039`): false unless both are valid;
then availability, room name, upcoming count and the upcoming ids below the
count must agree. -/
def roomStatusesAreEqual (first second : RoomStatus) : Bool :=
  if !first.isValid || !second.isValid then false
  else if first.isAvailable != second.isAvailable then false
  else if first.room.name != second.room.name then false
  else if first.upcomingCount != second.upcomingCount then false
  else
    (List.finRange 3).all fun i =>
      !(decide (i.val < first.upcomingCount)) ||
        ((first.upcomingBookings i).id == (second.upcomingBookings i).id)

/-- SCREEN_WIDTH of `config.h`. -/
def screenWidth : Int := 320

/-- SCREEN_HEIGHT of `config.h`. -/
def screenHeight : Int := 240

/-- Button rectangle registered by `UIManager::addButton`. -/
structure UIButton where
  x : Int
  y : Int
  w : Int
  h : Int
  label : String
  visible : Bool := true
deriving Repr, DecidableEq

/-- Hit test of one button used by `UIManager::checkButtonPress`
(`ui_manager.cpp:50`). -/
def buttonContains (b : UIButton) (touchX touchY : Int) : Bool :=
  b.visible && touchX ≥ b.x && touchX ≤ b.x + b.w &&
    touchY ≥ b.y && touchY ≤ b.y + b.h

/-- `UIManager::checkButtonPress`: index of the first registered button
containing the point, `-1` when none does. -/
def checkButtonPress (buttons : List UIButton) (touchX touchY : Int) : Int :=
  match buttons.findIdx? (fun b => buttonContains b touchX touchY) with
  | some i => (i : Int)
  | none => -1

/-- The screen currently drawn, one per `UIManager::show...` routine. -/
inductive Screen where
  | wifiSetup (apName apPassword : String)
  | tokenSetup (ipAddress : String)
  | roomStatus (status : RoomStatus)
  | quickBookMenu
  | bookingConfirm (duration : Int)
  | bookingResult (success : Bool) (message : String)
  | error (message : String)
  | loading (message : String)

/-- Buttons drawn by `UIManager::showQuickBookMenu` (`ui_manager.cpp:291`):
a fixed 2x2 grid of 15/30/45/60 minutes plus Cancel, taking no room data. -/
def showQuickBookMenuButtons : List UIButton :=
  [ { x := 12, y := 75, w := 145, h := 50, label := "15" }
  , { x := 167, y := 75, w := 145, h := 50, label := "30" }
  , { x := 12, y := 135, w := 145, h := 50, label := "45" }
  , { x := 167, y := 135, w := 145, h := 50, label := "60" }
  , { x := 12, y := screenHeight - 45, w := screenWidth - 24, h := 38, label := "Cancel" } ]

/-- Buttons registered while each screen is shown: every `show...` routine
calls `clearButtons()` and registers the visible buttons afresh
(`ui_manager.cpp`). -/
def screenButtons : Screen → List UIButton
  | .roomStatus status =>
    (if status.isAvailable then
      [{ x := 12, y := 50, w := screenWidth - 24, h := 70, label := "Book" }]
     else []) ++
    [{ x := screenWidth - 40, y := screenHeight - 35, w := 30, h := 30, label := "Refresh" }]
  | .quickBookMenu => showQuickBookMenuButtons
  | .bookingConfirm _ =>
    [ { x := 12, y := screenHeight - 55, w := 145, h := 45, label := "Cancel" }
    , { x := 163, y := screenHeight - 55, w := 145, h := 45, label := "Confirm" } ]
  | .bookingResult _ _ =>
    [{ x := screenWidth / 2 - 60, y := screenHeight - 50, w := 120, h := 40, label := "OK" }]
  | .error _ =>
    [{ x := screenWidth / 2 - 60, y := screenHeight - 50, w := 120, h := 40, label := "Retry" }]
  | _ => []

/-- RGB status LED colour (`setLedColor` / `setLedOff`, `main.cpp`). -/
inductive LedColor where
  | off
  | green
  | red
  | blue
deriving Repr, DecidableEq

/-- Persisted boot-loop counters (`PREF_BOOT_COUNT`, `PREF_BOOT_TIME`). -/
structure BootPrefs where
  bootCount : Nat
  bootTime : Nat
deriving Repr, DecidableEq

/-- Global mutable state of `main.cpp` (its file-scope variables plus the
screen and LED the UI currently shows and the persisted boot counters). -/
structure MainState where
  wifiConnected : Bool
  deviceConfigured : Bool
  webServerRunning : Bool
  setupMode : Bool
  screenOn : Bool
  connectionLost : Bool
  forceRedraw : Bool
  safeMode : Bool
  lastStatusUpdate : Nat
  lastPing : Nat
  lastTouchTime : Nat
  lastActivityTime : Nat
  lastConnectionRetry : Nat
  lastFirmwareCheck : Nat
  wifiLostTime : Nat
  wifiRetryCount : Nat
  selectedDuration : Int
  currentStatus : RoomStatus
  lastStatus : RoomStatus
  bootPrefs : BootPrefs
  screen : Screen
  ledColor : LedColor

/-- `checkBootLoop` (`main.cpp:78`), parametric in `BOOT_LOOP_THRESHOLD`
(the constant's value is not among the sources): a counter at or above the
threshold means a boot loop, so it is reset to zero and true is returned;
otherwise the counter is incremented and persisted with the boot time. -/
def checkBootLoop (threshold : Nat) (now : Nat) (p : BootPrefs) : Bool × BootPrefs :=
  if p.bootCount ≥ threshold then
    (true, { p with bootCount := 0 })
  else
    (false, { bootCount := p.bootCount + 1, bootTime := now })

/-- `updateRoomStatus` (`main.cpp:819`), parametric in the fetched status
(the result of `ApiClient::getRoomStatus`) and the device's IP address.
On a valid fetch it leaves setup mode, clears the connection-lost flag and
the boot counter, redraws only when forced or when the status differs from
the last one, and sets the LED from availability. On an invalid fetch an
unconfigured client sends the device to the token-setup screen in setup
mode, while a configured one enters the connection-lost backoff and shows
the error screen with a retry message. -/
def updateRoomStatus (cfg : ApiConfig) (fetched : RoomStatus) (now : Nat)
    (ipAddress : String) (s : MainState) : MainState :=
  let s := { s with currentStatus := fetched, lastStatusUpdate := now }
  if fetched.isValid then
    let s := { s with setupMode := false, connectionLost := false,
                      bootPrefs := { s.bootPrefs with bootCount := 0 } }
    let s :=
      if s.forceRedraw || !roomStatusesAreEqual fetched s.lastStatus then
        { s with screen := .roomStatus fetched, forceRedraw := false }
      else s
    { s with lastStatus := fetched,
             ledColor := if fetched.isAvailable then .green else .red }
  else
    if !isConfigured cfg then
      { s with deviceConfigured := false, setupMode := true, ledColor := .off,
               screen := .tokenSetup ipAddress }
    else
      let errorMsg :=
        (if fetched.errorMessage.length > 0 then fetched.errorMessage
         else "Cannot reach server") ++ "\n\nRetrying in 30s..."
      { s with connectionLost := true, lastConnectionRetry := now, ledColor := .off,
               screen := .error errorMsg }

/-- `wakeScreen` (`main.cpp:1026`): restores the backlight, redraws the
last valid status, and re-arms the activity timer. -/
def wakeScreen (now : Nat) (s : MainState) : MainState :=
  let s :=
    if !s.screenOn then
      let s := { s with screenOn := true }
      if s.currentStatus.isValid then { s with screen := .roomStatus s.currentStatus }
      else s
    else s
  { s with lastActivityTime := now }

/-- Touch acceptance of `handleTouch` (`main.cpp:865`): any touch re-arms
the activity timer; a touch with the backlight off only wakes the screen;
a touch within 300 ms of the last accepted one is dropped; otherwise the
touch is hit-tested against the current screen's buttons and the accepted
button index (if any) is handed to the per-screen dispatch switch. -/
def handleTouch (touchPoint : Option (Int × Int)) (now : Nat) (s : MainState) :
    MainState × Option Int :=
  match touchPoint with
  | none => (s, none)
  | some (touchX, touchY) =>
    let s := { s with lastActivityTime := now }
    if !s.screenOn then
      ({ wakeScreen now s with lastTouchTime := now }, none)
    else if now - s.lastTouchTime < 300 then
      (s, none)
    else
      let s := { s with lastTouchTime := now }
      let buttonIndex := checkButtonPress (screenButtons s.screen) touchX touchY
      if buttonIndex < 0 then (s, none) else (s, some buttonIndex)

/-- One unit of work the main loop decides to run in an iteration; the
network-touching ones (`pollStatus`, `pingServer`, `firmwareCheck`) stand
for the calls to `updateRoomStatus`, `apiClient.ping` and
`checkForFirmwareUpdate`. -/
inductive LoopAction where
  | serveWeb
  | wifiReconnect
  | deviceRestart
  | pollStatus
  | pingServer
  | firmwareCheck
  | dispatchTouch
  | checkTimeout
deriving Repr, DecidableEq

/-- One iteration of `loop` (`main.cpp:200`): serve the web endpoint, run
the WiFi reconnection policy while disconnected (retries every 10 s up to
5 times, restart after 60 s), re-enter normal operation on reconnection,
idle in safe/setup/unconfigured modes, and otherwise dispatch touch and
the due timers (connection-lost backoff retry, status poll, ping,
firmware check). The state records only the fields `loop` itself writes;
the emitted actions stand for the routines it invokes. -/
def loopStep (now : Nat) (wifiUp : Bool) (s : MainState) : List LoopAction × MainState :=
  let serve : List LoopAction := if s.webServerRunning then [.serveWeb] else []
  if !wifiUp then
    if s.wifiConnected then
      (serve ++ [.wifiReconnect],
       { s with wifiConnected := false, wifiLostTime := now, wifiRetryCount := 0,
                webServerRunning := false, ledColor := .off,
                screen := .error "WiFi disconnected\n\nReconnecting..." })
    else if now - s.wifiLostTime > 60000 then
      (serve ++ [.deviceRestart], s)
    else if s.wifiRetryCount < 5 && now - s.wifiLostTime > (s.wifiRetryCount + 1) * 10000 then
      (serve ++ [.wifiReconnect], { s with wifiRetryCount := s.wifiRetryCount + 1 })
    else
      (serve, s)
  else
    let reconnected :=
      if !s.wifiConnected then
        let s := { s with wifiConnected := true, wifiRetryCount := 0,
                          webServerRunning := true, forceRedraw := true }
        if s.deviceConfigured then
          (([.pollStatus] : List LoopAction),
           { s with screen := .loading "Reconnected! Loading..." })
        else (([] : List LoopAction), s)
      else (([] : List LoopAction), s)
    let acts1 := reconnected.1
    let s := reconnected.2
    if s.safeMode then (serve ++ acts1, s)
    else if s.setupMode then (serve ++ acts1, { s with ledColor := .off })
    else if !s.deviceConfigured then (serve ++ acts1, { s with ledColor := .off })
    else
      let acts2 := acts1 ++ [.dispatchTouch, .checkTimeout]
      if s.connectionLost then
        if now - s.lastConnectionRetry > 30000 then
          (serve ++ acts2 ++ [.pollStatus],
           { s with forceRedraw := true, lastConnectionRetry := now })
        else (serve ++ acts2, s)
      else
        let poll :=
          if now - s.lastStatusUpdate > 30000 then (acts2 ++ [.pollStatus], s) else (acts2, s)
        let ping :=
          if now - poll.2.lastPing > 60000 then
            (poll.1 ++ [.pingServer], { poll.2 with lastPing := now })
          else poll
        let fw :=
          if now - ping.2.lastFirmwareCheck > 300000 then
            (ping.1 ++ [.firmwareCheck], { ping.2 with lastFirmwareCheck := now })
          else ping
        (serve ++ fw.1, fw.2)

/-- `FirmwareInfo` struct of `api_client.h`. -/
structure FirmwareInfo where
  id : String
  version : String
  size : Int
  checksum : String
  releaseNotes : String
  isValid : Bool
deriving Repr, DecidableEq

/-- `FirmwareUpdateResult` struct of `api_client.h`. -/
structure FirmwareUpdateResult where
  updateAvailable : Bool
  currentVersion : String
  latestVersion : String
  firmware : FirmwareInfo
deriving Repr, DecidableEq

/-- FIRMWARE_VERSION of `config.h`. -/
def firmwareVersion : String := "1.0.0"

/-- `ApiClient::checkForFirmwareUpdate` (`api_client.cpp:258`): any failed
or unparseable exchange reports no update; the firmware info is filled (and
marked valid) only when the response says an update is available and
carries a `latestFirmware` object. -/
def parseFirmwareCheck (cfg : ApiConfig) (o : HttpOutcome) : FirmwareUpdateResult :=
  let base : FirmwareUpdateResult :=
    { updateAvailable := false, currentVersion := "", latestVersion := ""
      firmware := { id := "", version := "", size := 0, checksum := ""
                    releaseNotes := "", isValid := false } }
  match makeRequest cfg o with
  | none => base
  | some body =>
    if body.len = 0 then base
    else
      match body.parsed with
      | none => base
      | some doc =>
        let result :=
          { base with
              updateAvailable := (doc.get "updateAvailable").asBoolOr false
              currentVersion := (doc.get "currentVersion").asString
              latestVersion := (doc.get "latestVersion").asString }
        if result.updateAvailable && !(doc.get "latestFirmware").isNull then
          let fw := doc.get "latestFirmware"
          { result with
              firmware :=
                { id := (fw.get "id").asString
                  version := (fw.get "version").asString
                  size := (fw.get "size").asIntOr 0
                  checksum := (fw.get "checksum").asString
                  releaseNotes := (fw.get "releaseNotes").asString
                  isValid := true } }
        else result

/-- Decision step of `checkForFirmwareUpdate` (`main.cpp:1073`): the update
download (`performFirmwareUpdate`) runs with the offered version only when
the check result reports an available update with valid firmware info. -/
def checkForFirmwareUpdate (result : FirmwareUpdateResult) : Option String :=
  if result.updateAvailable && result.firmware.isValid then
    some result.firmware.version
  else none

/-- Outcome of the platform OTA transfer (`httpUpdate.update`). -/
inductive UpdateOutcome where
  | failed (err : String)
  | noUpdates
  | ok

/-- `performFirmwareUpdate` (`main.cpp:1096`): shows the update screen,
then on failure shows the error and falls back to the room-status screen
(when a valid status exists) without restarting; on success shows the
completion screen and restarts. Returns the screens shown in order, the
final state, and whether the device restarts. -/
def performFirmwareUpdate (version : String) (outcome : UpdateOutcome) (s : MainState) :
    List Screen × MainState × Bool :=
  let startScreen : Screen :=
    .loading ("Updating firmware...\nv" ++ firmwareVersion ++ " -> v" ++ version ++
      "\n\nDo not power off!")
  let s := { s with screen := startScreen, ledColor := .blue }
  match outcome with
  | .failed err =>
    let errScreen : Screen := .error ("Update failed!\n\n" ++ err)
    let s := { s with screen := errScreen, ledColor := .off }
    if s.currentStatus.isValid then
      ([startScreen, errScreen, .roomStatus s.currentStatus],
       ({ s with screen := .roomStatus s.currentStatus,
                 ledColor := if s.currentStatus.isAvailable then .green else .red }, false))
    else ([startScreen, errScreen], (s, false))
  | .noUpdates =>
    let noneScreen : Screen := .error "No update available"
    let s := { s with screen := noneScreen }
    if s.currentStatus.isValid then
      ([startScreen, noneScreen, .roomStatus s.currentStatus],
       ({ s with screen := .roomStatus s.currentStatus,
                 ledColor := if s.currentStatus.isAvailable then .green else .red }, false))
    else ([startScreen, noneScreen], (s, false))
  | .ok =>
    let doneScreen : Screen := .loading "Update complete!\n\nRebooting..."
    ([startScreen, doneScreen], ({ s with screen := doneScreen }, true))

/-- Summary of one boot-to-boot epoch of the device for the boot-loop
guard: whether some status fetch succeeded during the epoch (each success
runs `clearBootCount`, `main.cpp:826`) and whether the configured setup
path ran to its unconditional `clearBootCount` (`main.cpp:190`). -/
structure BootEpoch where
  fetchSucceeded : Bool
  completedSetup : Bool
deriving Repr, DecidableEq

/-- An epoch leaves the persisted counter at zero exactly when one of its
`clearBootCount` call sites ran. -/
def BootEpoch.clearsCounter (e : BootEpoch) : Bool :=
  e.fetchSucceeded || e.completedSetup

/-- Persisted boot counter after one epoch that started with counter `c`:
the boot itself runs `checkBootLoop`, and any `clearBootCount` during the
epoch rewrites the counter to zero. -/
def bootEpochStep (threshold : Nat) (c : Nat) (e : BootEpoch) : Nat :=
  let boot := checkBootLoop threshold 0 { bootCount := c, bootTime := 0 }
  if e.clearsCounter then 0 else boot.2.bootCount

/-- Persisted boot counter after a sequence of epochs starting from a
cleared counter. -/
def bootCountAfter (threshold : Nat) (es : List BootEpoch) : Nat :=
  es.foldl (bootEpochStep threshold) 0

/-! ### Shared helper lemmas and concrete test fixtures -/

/-- A configured client used by concrete instantiations. -/
def testCfg : ApiConfig := { apiUrl := "http://server:3001", deviceToken := "tok-1" }

/-- Global state as `setup()` leaves it right after boot
(`main.cpp:25`-`44`: flags cleared, `forceRedraw` true, timers zero). -/
def initState : MainState :=
  { wifiConnected := false, deviceConfigured := false, webServerRunning := false,
    setupMode := false, screenOn := true, connectionLost := false,
    forceRedraw := true, safeMode := false,
    lastStatusUpdate := 0, lastPing := 0, lastTouchTime := 0, lastActivityTime := 0,
    lastConnectionRetry := 0, lastFirmwareCheck := 0, wifiLostTime := 0,
    wifiRetryCount := 0, selectedDuration := 0,
    currentStatus := emptyStatus, lastStatus := emptyStatus,
    bootPrefs := { bootCount := 0, bootTime := 0 },
    screen := .loading "Connecting to WiFi...", ledColor := .off }

/-- The first three Fin indices, spelled out. -/
theorem finRange_three : List.finRange 3 = [0, 1, 2] := by decide

/-- Characterisation of `roomStatusesAreEqual` returning true. -/
theorem roomStatusesAreEqual_iff (A B : RoomStatus) :
    roomStatusesAreEqual A B = true ↔
      A.isValid = true ∧ B.isValid = true ∧ A.isAvailable = B.isAvailable ∧
      A.room.name = B.room.name ∧ A.upcomingCount = B.upcomingCount ∧
      ∀ i : Fin 3, i.val < A.upcomingCount →
        (A.upcomingBookings i).id = (B.upcomingBookings i).id := by
  unfold roomStatusesAreEqual
  cases hA : A.isValid <;> cases hB : B.isValid <;>
    simp [hA, hB, List.all_eq_true, List.mem_finRange]
  intro _ _ _
  constructor
  · intro h4 i hi
    rcases h4 i with h5 | h5
    · omega
    · exact h5
  · intro h4 i
    by_cases hi : i.val < A.upcomingCount
    · exact Or.inr (h4 i hi)
    · exact Or.inl (by omega)

/-! ### C2 — `roomStatusesAreEqual` -/

/-- C2 counterexample: the claimed reflexivity fails at an invalid status.
`roomStatusesAreEqual` compares the freshly failed status against itself
and returns false, because both sides must be valid
(`main.cpp:1041`), so `roomStatusesAreEqual(A,A) = true for every A` is
false at `A = emptyStatus`. -/
theorem c2_refl_counterexample :
    roomStatusesAreEqual emptyStatus emptyStatus = false := by decide

/-- C2 (amended): `roomStatusesAreEqual A B` is true iff both statuses are
valid with the same availability, room name, upcoming count and
pairwise-equal upcoming booking ids below that count; the relation is
symmetric, and it is reflexive on the valid statuses (an invalid status is
not equal to itself). -/
theorem c2_roomStatusesAreEqual_spec (A B : RoomStatus) :
    (roomStatusesAreEqual A B = true ↔
      A.isValid = true ∧ B.isValid = true ∧ A.isAvailable = B.isAvailable ∧
      A.room.name = B.room.name ∧ A.upcomingCount = B.upcomingCount ∧
      ∀ i : Fin 3, i.val < A.upcomingCount →
        (A.upcomingBookings i).id = (B.upcomingBookings i).id) ∧
    roomStatusesAreEqual A B = roomStatusesAreEqual B A ∧
    (A.isValid = true → roomStatusesAreEqual A A = true) := by
  refine ⟨roomStatusesAreEqual_iff A B, ?_, ?_⟩
  · rw [Bool.eq_iff_iff, roomStatusesAreEqual_iff, roomStatusesAreEqual_iff]
    constructor
    · rintro ⟨h1, h2, h3, h4, h5, h6⟩
      exact ⟨h2, h1, h3.symm, h4.symm, h5.symm,
        fun i hi => (h6 i (by omega)).symm⟩
    · rintro ⟨h1, h2, h3, h4, h5, h6⟩
      exact ⟨h2, h1, h3.symm, h4.symm, h5.symm,
        fun i hi => (h6 i (by omega)).symm⟩
  · intro hA
    exact (roomStatusesAreEqual_iff A A).mpr
      ⟨hA, hA, rfl, rfl, rfl, fun _ _ => rfl⟩

/-- A concrete valid room status used by witness instantiations. -/
def validStatusEx : RoomStatus :=
  { emptyStatus with
    isValid := true,
    isAvailable := true,
    room := parseRoom (Json.obj [("id", Json.str "r1"), ("name", Json.str "Conf A")]) }

/-- C2 witness: the amended theorem applied at a concrete valid status. -/
theorem c2_roomStatusesAreEqual_spec_witness :
    roomStatusesAreEqual validStatusEx validStatusEx = true :=
  (c2_roomStatusesAreEqual_spec validStatusEx validStatusEx).2.2 rfl

/-! ### C10 — empty `quickBookDurations` array vs absent field -/

/-- C10: when the room object carries `quickBookDurations` as a present but
empty array, `parseRoom` offers no durations (count 0); the default set
`{30, 60, 90, 120}` with count 4 is used exactly when the field reads as
null (absent or explicit null). -/
theorem c10_parseRoom_empty_array (j : Json) :
    (j.get "quickBookDurations" = Json.arr [] →
      (parseRoom j).quickBookDurationCount = 0) ∧
    (j.get "quickBookDurations" = Json.null →
      (parseRoom j).quickBookDurationCount = 4 ∧
      (parseRoom j).quickBookDurations = [30, 60, 90, 120]) := by
  constructor
  · intro h
    cases j <;> simp_all [parseRoom, Json.get, Json.isNull, Json.asArray]
  · intro h
    cases j <;> simp_all [parseRoom, Json.get, Json.isNull, defaultDurations]

/-- C10 witness: the theorem applied to a room with an empty duration array
and to a room without the field. -/
theorem c10_parseRoom_empty_array_witness :
    (parseRoom (Json.obj [("id", Json.str "r1"),
      ("quickBookDurations", Json.arr [])])).quickBookDurationCount = 0 ∧
    (parseRoom (Json.obj [("id", Json.str "r1")])).quickBookDurationCount = 4 :=
  ⟨(c10_parseRoom_empty_array
      (Json.obj [("id", Json.str "r1"), ("quickBookDurations", Json.arr [])])).1 rfl,
   ((c10_parseRoom_empty_array (Json.obj [("id", Json.str "r1")])).2 rfl).1⟩

/-! ### C1 — quick-book menu vs the room's configured durations -/

/-- A status response whose room configures quick-book durations [10, 20];
the failing input for C1. -/
def c1RoomDoc : Json :=
  Json.obj [("id", Json.str "room-1"), ("name", Json.str "Conf A"),
            ("quickBookDurations", Json.arr [Json.num 10, Json.num 20])]

/-- C1: the claim fails in the code. `parseRoom` does produce the room's
configured durations ([10, 20] here, count 2), but
`UIManager::showQuickBookMenu` (`ui_manager.cpp:291`) takes no room data at
all and always draws the fixed buttons 15/30/45/60 minutes plus Cancel, so
the menu's duration buttons never correspond to the room's
`quickBookDurations` list. -/
theorem c1_quickBookMenu_hardcoded :
    (parseRoom c1RoomDoc).quickBookDurationCount = 2 ∧
    (parseRoom c1RoomDoc).quickBookDurations.take
      (parseRoom c1RoomDoc).quickBookDurationCount = [10, 20] ∧
    screenButtons Screen.quickBookMenu = showQuickBookMenuButtons ∧
    showQuickBookMenuButtons.map UIButton.label = ["15", "30", "45", "60", "Cancel"] ∧
    showQuickBookMenuButtons.map UIButton.label ≠
      ((parseRoom c1RoomDoc).quickBookDurations.take
        (parseRoom c1RoomDoc).quickBookDurationCount).map (fun d => toString d) ++
        ["Cancel"] := by
  refine ⟨by decide, by decide, rfl, by decide, by decide⟩

/-! ### C3 — failed status fetch: setup screen vs connection-lost backoff -/

/-- C3: on a failed fetch (`isValid=false`), an unconfigured client sends
`updateRoomStatus` to setup mode with the token-setup screen (never an
error screen), while a configured client enters the connection-lost
backoff and shows the error screen with the retry message, leaving the
configured flag untouched and never showing token setup. -/
theorem c3_updateRoomStatus_failure (cfg : ApiConfig) (fetched : RoomStatus)
    (now : Nat) (ipAddress : String) (s : MainState)
    (hfail : fetched.isValid = false) :
    (isConfigured cfg = false →
      (updateRoomStatus cfg fetched now ipAddress s).setupMode = true ∧
      (updateRoomStatus cfg fetched now ipAddress s).deviceConfigured = false ∧
      (updateRoomStatus cfg fetched now ipAddress s).screen = .tokenSetup ipAddress ∧
      ∀ msg, (updateRoomStatus cfg fetched now ipAddress s).screen ≠ .error msg) ∧
    (isConfigured cfg = true →
      (updateRoomStatus cfg fetched now ipAddress s).connectionLost = true ∧
      (updateRoomStatus cfg fetched now ipAddress s).screen =
        .error ((if fetched.errorMessage.length > 0 then fetched.errorMessage
                 else "Cannot reach server") ++ "\n\nRetrying in 30s...") ∧
      (updateRoomStatus cfg fetched now ipAddress s).deviceConfigured =
        s.deviceConfigured ∧
      (updateRoomStatus cfg fetched now ipAddress s).setupMode = s.setupMode ∧
      ∀ ip2, (updateRoomStatus cfg fetched now ipAddress s).screen ≠ .tokenSetup ip2) := by
  constructor
  · intro hcfg
    simp [updateRoomStatus, hfail, hcfg]
  · intro hcfg
    simp [updateRoomStatus, hfail, hcfg]

/-- C3 witness: an unconfigured device with a failed fetch lands on the
token-setup screen in setup mode. -/
theorem c3_updateRoomStatus_failure_witness :
    (updateRoomStatus { apiUrl := "", deviceToken := "" }
      { emptyStatus with errorMessage := "Failed to connect to server" }
      1000 "192.168.1.50" initState).setupMode = true ∧
    (updateRoomStatus { apiUrl := "", deviceToken := "" }
      { emptyStatus with errorMessage := "Failed to connect to server" }
      1000 "192.168.1.50" initState).screen = .tokenSetup "192.168.1.50" :=
  ⟨((c3_updateRoomStatus_failure { apiUrl := "", deviceToken := "" }
      { emptyStatus with errorMessage := "Failed to connect to server" }
      1000 "192.168.1.50" initState rfl).1 rfl).1,
   ((c3_updateRoomStatus_failure { apiUrl := "", deviceToken := "" }
      { emptyStatus with errorMessage := "Failed to connect to server" }
      1000 "192.168.1.50" initState rfl).1 rfl).2.2.1⟩

/-! ### C4 / C5 — shape of `getRoomStatus` results -/

/-- Every `getRoomStatus` result is either a failure built from the default
status with some error message, or the parse of some document. -/
theorem getRoomStatus_cases (cfg : ApiConfig) (o : HttpOutcome) :
    (∃ msg, getRoomStatus cfg o = { emptyStatus with errorMessage := msg }) ∨
    ∃ doc : Json,
      getRoomStatus cfg o =
        { room := parseRoom (doc.get "room")
          isAvailable := (doc.get "isAvailable").asBoolOr false
          currentBooking :=
            if !(doc.get "currentBooking").isNull then
              parseBooking (doc.get "currentBooking")
            else emptyBooking
          upcomingBookings := fun i =>
            ((((doc.get "upcomingBookings").asArray).take 3).map parseBooking).getD
              i.val emptyBooking
          upcomingCount :=
            ((((doc.get "upcomingBookings").asArray).take 3).map parseBooking).countP
              (fun b => b.isValid)
          isValid := (parseRoom (doc.get "room")).isValid
          errorMessage := "" } := by
  unfold getRoomStatus
  cases hm : makeRequest cfg o with
  | none => exact Or.inl ⟨_, rfl⟩
  | some body =>
    by_cases hlen : body.len = 0
    · simp only [hlen, if_pos rfl]
      exact Or.inl ⟨_, rfl⟩
    · simp only [hlen, if_neg hlen, ite_false]
      cases hp : body.parsed with
      | none => exact Or.inl ⟨_, rfl⟩
      | some doc =>
        by_cases herr : (doc.get "error").isNull
        · simp only [herr, Bool.not_true, Bool.false_eq_true, if_false]
          exact Or.inr ⟨doc, rfl⟩
        · simp only [Bool.not_eq_true] at herr
          simp only [herr, Bool.not_false, if_true]
          exact Or.inl ⟨_, rfl⟩

/-- Counting the valid entries of a short list equals counting the valid
slots of the three-slot array it fills (unfilled slots default to the
invalid booking). -/
theorem countP_isValid_eq_finRange (l : List Booking) (h : l.length ≤ 3) :
    l.countP (fun b => b.isValid) =
      ((List.finRange 3).filter
        (fun i => (l.getD i.val emptyBooking).isValid)).length := by
  rcases l with _ | ⟨a, _ | ⟨b, _ | ⟨c, _ | ⟨d, t⟩⟩⟩⟩
  · simp [finRange_three, emptyBooking]
  · cases ha : a.isValid <;>
      simp [finRange_three, List.countP_cons, ha, emptyBooking]
  · cases ha : a.isValid <;> cases hb : b.isValid <;>
      simp [finRange_three, List.countP_cons, ha, hb, emptyBooking]
  · cases ha : a.isValid <;> cases hb : b.isValid <;> cases hc : c.isValid <;>
      simp [finRange_three, List.countP_cons, ha, hb, hc, emptyBooking]
  · simp at h

/-- A status response whose upcoming list has an id-less (invalid) entry
before a valid one; the counterexample input for C4. -/
def c4Doc : Json :=
  Json.obj
    [ ("room", Json.obj [("id", Json.str "room-1"), ("name", Json.str "Conf A")])
    , ("isAvailable", Json.bool true)
    , ("upcomingBookings", Json.arr
        [ Json.obj [("title", Json.str "No id booking")]
        , Json.obj [("id", Json.str "b2"), ("title", Json.str "Standup")] ]) ]

/-- C4 counterexample: the upcoming loop (`api_client.cpp:159`) stores each
parsed booking at its original index and only counts the valid ones, so
with an invalid entry before a valid one the result has `upcomingCount = 1`
while index 0 (which is below the count) holds an invalid booking — the
valid entries are not compacted at the front. -/
theorem c4_compaction_counterexample :
    (getRoomStatus testCfg
      (.response 200 { len := 50, parsed := some c4Doc })).upcomingCount = 1 ∧
    ((getRoomStatus testCfg
      (.response 200 { len := 50, parsed := some c4Doc })).upcomingBookings
        0).isValid = false := by
  constructor
  · rfl
  · rfl

/-- C4 (amended): every `getRoomStatus` result satisfies
`upcomingCount ≤ 3` and `upcomingCount` equals the number of valid entries
in `upcomingBookings`; the parsed entries keep the positions they occupy in
the response (first three array elements, in order), so an index below
`upcomingCount` may hold an invalid entry. -/
theorem c4_upcoming_count_inv (cfg : ApiConfig) (o : HttpOutcome) :
    (getRoomStatus cfg o).upcomingCount ≤ 3 ∧
    (getRoomStatus cfg o).upcomingCount =
      ((List.finRange 3).filter
        (fun i => ((getRoomStatus cfg o).upcomingBookings i).isValid)).length := by
  rcases getRoomStatus_cases cfg o with ⟨msg, hmsg⟩ | ⟨doc, hdoc⟩
  · rw [hmsg]
    constructor
    · simp [emptyStatus]
    · simp [emptyStatus, finRange_three, emptyBooking]
  · rw [hdoc]
    have hlen :
        ((((doc.get "upcomingBookings").asArray).take 3).map parseBooking).length ≤ 3 := by
      simp [List.length_map, List.length_take]
    constructor
    · exact le_trans (List.countP_le_length _) hlen
    · exact countP_isValid_eq_finRange _ hlen

/-- Reading slot `i` of the parsed upcoming array: the first
`min 3 (length)` response entries are parsed in place, the rest of the
three slots keep the default booking. -/
theorem getD_take_map_parseBooking (xs : List Json) (i : Nat) :
    ((xs.take 3).map parseBooking).getD i emptyBooking =
      if i < min 3 xs.length then parseBooking (xs.getD i Json.null)
      else emptyBooking := by
  rw [List.getD_eq_getElem?_getD, List.getD_eq_getElem?_getD,
    List.getElem?_map, List.getElem?_take]
  rcases Nat.lt_or_ge i 3 with h3 | h3
  · rcases Nat.lt_or_ge i xs.length with hl | hl
    · have hmin : i < min 3 xs.length := by omega
      simp [h3, hmin, List.getElem?_eq_getElem hl]
    · have hmin : ¬ i < min 3 xs.length := by omega
      have hnone : xs[i]? = none := List.getElem?_eq_none hl
      simp [h3, hmin, hnone]
  · have hmin : ¬ i < min 3 xs.length := by omega
    have h3' : ¬ i < 3 := by omega
    simp [h3', hmin]


/-- On a configured client, a 2xx response with a non-empty, well-formed
body and no `error` field, `getRoomStatus` returns exactly the parsed
status. -/
theorem getRoomStatus_success_eq (cfg : ApiConfig) (code : Int)
    (body : HttpBody) (doc : Json)
    (hc : isConfigured cfg = true) (h2 : (200 ≤ code && code < 300) = true)
    (hlen : body.len ≠ 0) (hp : body.parsed = some doc)
    (herr : (doc.get "error").isNull = true) :
    getRoomStatus cfg (.response code body) =
      { room := parseRoom (doc.get "room")
        isAvailable := (doc.get "isAvailable").asBoolOr false
        currentBooking :=
          if !(doc.get "currentBooking").isNull then
            parseBooking (doc.get "currentBooking")
          else emptyBooking
        upcomingBookings := fun i =>
          ((((doc.get "upcomingBookings").asArray).take 3).map parseBooking).getD
            i.val emptyBooking
        upcomingCount :=
          ((((doc.get "upcomingBookings").asArray).take 3).map parseBooking).countP
            (fun b => b.isValid)
        isValid := (parseRoom (doc.get "room")).isValid
        errorMessage := "" } := by
  have hm : makeRequest cfg (.response code body) = some body := by
    simp [makeRequest, hc, h2]
  unfold getRoomStatus
  rw [hm]
  simp only [hlen, if_neg hlen, hp, herr, Bool.not_true, Bool.false_eq_true,
    if_false]

/-- C5: full contract of `getRoomStatus`. A transport failure or a non-2xx
response yields an invalid result with the generic connect message; a body
with an explicit `error` field yields an invalid result carrying that
message; otherwise at most the first three upcoming entries are parsed at
their original positions (extras beyond three silently dropped, missing
slots left as the invalid default) and the result's validity equals the
parsed room's validity. -/
theorem c5_getRoomStatus_contract (cfg : ApiConfig) (code : Int)
    (body : HttpBody) (doc : Json) :
    ((getRoomStatus cfg .transportError).isValid = false ∧
      (getRoomStatus cfg .transportError).errorMessage =
        "Failed to connect to server") ∧
    ((200 ≤ code && code < 300) = false →
      (getRoomStatus cfg (.response code body)).isValid = false ∧
      (getRoomStatus cfg (.response code body)).errorMessage =
        "Failed to connect to server") ∧
    (isConfigured cfg = true → (200 ≤ code && code < 300) = true →
      body.len ≠ 0 → body.parsed = some doc →
      ((doc.get "error").isNull = false →
        (getRoomStatus cfg (.response code body)).isValid = false ∧
        (getRoomStatus cfg (.response code body)).errorMessage =
          (doc.get "error").asString) ∧
      ((doc.get "error").isNull = true →
        (getRoomStatus cfg (.response code body)).isValid =
          (parseRoom (doc.get "room")).isValid ∧
        (getRoomStatus cfg (.response code body)).upcomingCount ≤ 3 ∧
        ∀ i : Fin 3,
          (getRoomStatus cfg (.response code body)).upcomingBookings i =
            if i.val < min 3 ((doc.get "upcomingBookings").asArray).length then
              parseBooking
                (((doc.get "upcomingBookings").asArray).getD i.val Json.null)
            else emptyBooking)) := by
  refine ⟨?_, ?_, ?_⟩
  · by_cases hc : isConfigured cfg <;>
      simp [getRoomStatus, makeRequest, hc, emptyStatus]
  · intro h2
    by_cases hc : isConfigured cfg <;>
      simp [getRoomStatus, makeRequest, hc, h2, emptyStatus]
  · intro hc h2 hlen hp
    constructor
    · intro herr
      simp [getRoomStatus, makeRequest, hc, h2, hlen, hp, herr, emptyStatus]
    · intro herr
      rw [getRoomStatus_success_eq cfg code body doc hc h2 hlen hp herr]
      refine ⟨rfl, ?_, ?_⟩
      · exact le_trans (List.countP_le_length _) (by simp)
      · intro i
        exact getD_take_map_parseBooking _ _

/-- C5 witness: the contract applied at a concrete successful response with
four upcoming bookings, of which only the first three are kept. -/
theorem c5_getRoomStatus_contract_witness :
    (getRoomStatus testCfg
      (.response 200
        { len := 40,
          parsed := some (Json.obj
            [ ("room", Json.obj [("id", Json.str "r9")])
            , ("upcomingBookings", Json.arr
                [ Json.obj [("id", Json.str "u1")]
                , Json.obj [("id", Json.str "u2")]
                , Json.obj [("id", Json.str "u3")]
                , Json.obj [("id", Json.str "u4")] ]) ]) })).upcomingBookings 2 =
      parseBooking (Json.obj [("id", Json.str "u3")]) := by
  have h :=
    (((c5_getRoomStatus_contract testCfg 200
      { len := 40,
        parsed := some (Json.obj
          [ ("room", Json.obj [("id", Json.str "r9")])
          , ("upcomingBookings", Json.arr
              [ Json.obj [("id", Json.str "u1")]
              , Json.obj [("id", Json.str "u2")]
              , Json.obj [("id", Json.str "u3")]
              , Json.obj [("id", Json.str "u4")] ]) ]) }
      (Json.obj
        [ ("room", Json.obj [("id", Json.str "r9")])
        , ("upcomingBookings", Json.arr
            [ Json.obj [("id", Json.str "u1")]
            , Json.obj [("id", Json.str "u2")]
            , Json.obj [("id", Json.str "u3")]
            , Json.obj [("id", Json.str "u4")] ]) ])).2.2
      rfl rfl (by decide) rfl).2 rfl).2.2 2
  rw [h]
  rfl

/-! ### C6 — boot-loop guard -/

/-- Closed form of one epoch's effect on the persisted counter. -/
theorem bootEpochStep_eq (threshold c : Nat) (e : BootEpoch) :
    bootEpochStep threshold c e =
      if e.clearsCounter then 0
      else if c ≥ threshold then 0 else c + 1 := by
  by_cases hcl : e.clearsCounter <;> by_cases hge : c ≥ threshold <;>
    simp [bootEpochStep, checkBootLoop, hcl, hge]

/-- If the persisted counter reached `k` after a sequence of epochs, the
last `k` epochs ran no `clearBootCount` at all. -/
theorem bootCountAfter_ge_imp (threshold : Nat) (es : List BootEpoch) :
    ∀ k : Nat, bootCountAfter threshold es ≥ k →
      k ≤ es.length ∧
      ∀ e ∈ es.drop (es.length - k), e.clearsCounter = false := by
  induction es using List.reverseRecOn with
  | nil =>
    intro k hk
    simp [bootCountAfter] at hk
    subst hk
    simp
  | append_singleton es e ih =>
    intro k hk
    cases k with
    | zero => simp
    | succ k2 =>
      rw [bootCountAfter, List.foldl_append] at hk
      simp only [List.foldl_cons, List.foldl_nil] at hk
      have hfold : List.foldl (bootEpochStep threshold) 0 es =
          bootCountAfter threshold es := rfl
      rw [hfold, bootEpochStep_eq] at hk
      by_cases hcl : e.clearsCounter
      · simp [hcl] at hk
      · rw [if_neg hcl] at hk
        by_cases hge : bootCountAfter threshold es ≥ threshold
        · rw [if_pos hge] at hk
          omega
        · rw [if_neg hge] at hk
          obtain ⟨hlen, hall⟩ := ih k2 (by omega)
          refine ⟨by simp; omega, ?_⟩
          have hdrop :
              (es ++ [e]).drop ((es ++ [e]).length - (k2 + 1)) =
                es.drop (es.length - k2) ++ [e] := by
            have h1 : (es ++ [e]).length - (k2 + 1) = es.length - k2 := by
              simp only [List.length_append, List.length_cons, List.length_nil]
              omega
            rw [h1, List.drop_append_of_le_length (by omega)]
          rw [hdrop]
          intro e2 he2
          rcases List.mem_append.mp he2 with h | h
          · exact hall e2 h
          · simp at h
            subst h
            simpa using hcl

/-- C6: at every boot `checkBootLoop` returns true and resets the counter
exactly when the persisted counter has reached the threshold, and otherwise
increments and persists it; every successful status fetch resets the
counter to zero; and the threshold can only be reached by at least
`threshold` consecutive boot epochs during which no status fetch succeeded
(a single success clears the counter). -/
theorem c6_bootLoop_guard (threshold now : Nat) (p : BootPrefs)
    (cfg : ApiConfig) (fetched : RoomStatus) (ipAddress : String)
    (s : MainState) (es : List BootEpoch) :
    (p.bootCount ≥ threshold →
      checkBootLoop threshold now p = (true, { p with bootCount := 0 })) ∧
    (p.bootCount < threshold →
      checkBootLoop threshold now p =
        (false, { bootCount := p.bootCount + 1, bootTime := now })) ∧
    (fetched.isValid = true →
      (updateRoomStatus cfg fetched now ipAddress s).bootPrefs.bootCount = 0) ∧
    (bootCountAfter threshold es ≥ threshold →
      threshold ≤ es.length ∧
      ∀ e ∈ es.drop (es.length - threshold), e.fetchSucceeded = false) := by
  refine ⟨?_, ?_, ?_, ?_⟩
  · intro h
    simp [checkBootLoop, h]
  · intro h
    simp [checkBootLoop, Nat.not_le.mpr h]
  · intro h
    simp only [updateRoomStatus, h, if_true]
    split <;> rfl
  · intro h
    obtain ⟨hlen, hall⟩ := bootCountAfter_ge_imp threshold es threshold h
    refine ⟨hlen, fun e he => ?_⟩
    have := hall e he
    simp [BootEpoch.clearsCounter] at this
    exact this.1

/-- C6 witness: with threshold 3, three uncleared boot epochs reach the
threshold and the next boot enters safe mode resetting the counter, while
an epoch with a successful fetch resets the counter. -/
theorem c6_bootLoop_guard_witness :
    checkBootLoop 3 99 { bootCount := 3, bootTime := 7 } =
      (true, { bootCount := 0, bootTime := 7 }) ∧
    checkBootLoop 3 99 { bootCount := 0, bootTime := 7 } =
      (false, { bootCount := 1, bootTime := 99 }) ∧
    (updateRoomStatus testCfg validStatusEx 50 "10.0.0.2"
      { initState with bootPrefs := { bootCount := 2, bootTime := 1 } }
      ).bootPrefs.bootCount = 0 :=
  ⟨(c6_bootLoop_guard 3 99 { bootCount := 3, bootTime := 7 } testCfg
      validStatusEx "10.0.0.2" initState []).1 (by decide),
   (c6_bootLoop_guard 3 99 { bootCount := 0, bootTime := 7 } testCfg
      validStatusEx "10.0.0.2" initState []).2.1 (by decide),
   (c6_bootLoop_guard 3 50 { bootCount := 0, bootTime := 7 } testCfg
      validStatusEx "10.0.0.2"
      { initState with bootPrefs := { bootCount := 2, bootTime := 1 } } []).2.2.1 rfl⟩

/-! ### C7 — firmware update orchestration -/

/-- The firmware parser marks the firmware info valid only when the
response reported an available update. -/
theorem parseFirmwareCheck_valid_imp (cfg : ApiConfig) (o : HttpOutcome)
    (hfw : (parseFirmwareCheck cfg o).firmware.isValid = true) :
    (parseFirmwareCheck cfg o).updateAvailable = true := by
  unfold parseFirmwareCheck at hfw ⊢
  cases hm : makeRequest cfg o with
  | none => simp [hm] at hfw
  | some body =>
    by_cases hlen : body.len = 0
    · simp [hm, hlen] at hfw
    · cases hp : body.parsed with
      | none => simp [hm, hlen, hp] at hfw
      | some doc =>
        by_cases hava : (doc.get "updateAvailable").asBoolOr false = true
        · by_cases hnull : (doc.get "latestFirmware").isNull = true
          · simp [hm, hlen, hp, hava, hnull] at hfw
          · simp [hlen, hp, hava, hnull]
        · simp [hm, hlen, hp, hava] at hfw

/-- C7: an update download is attempted only when the check result reports
an available update with valid firmware info (and the parser marks the
info valid only when the response says an update is available); on success
the device shows the completion screen and restarts; on failure it shows
the failure reason, never restarts, and falls back to the last known
room-status screen when one exists. -/
theorem c7_firmware_update_flow (r : FirmwareUpdateResult) (cfg : ApiConfig)
    (o : HttpOutcome) (v err : String) (s : MainState) :
    (∀ ver, checkForFirmwareUpdate r = some ver →
      r.updateAvailable = true ∧ r.firmware.isValid = true ∧
      ver = r.firmware.version) ∧
    ((parseFirmwareCheck cfg o).firmware.isValid = true →
      (parseFirmwareCheck cfg o).updateAvailable = true) ∧
    ((performFirmwareUpdate v .ok s).2.2 = true ∧
      (performFirmwareUpdate v .ok s).1 =
        [.loading ("Updating firmware...\nv" ++ firmwareVersion ++ " -> v" ++ v ++
            "\n\nDo not power off!"),
         .loading "Update complete!\n\nRebooting..."]) ∧
    ((performFirmwareUpdate v (.failed err) s).2.2 = false ∧
      (performFirmwareUpdate v (.failed err) s).1 =
        [.loading ("Updating firmware...\nv" ++ firmwareVersion ++ " -> v" ++ v ++
            "\n\nDo not power off!"),
         .error ("Update failed!\n\n" ++ err)] ++
          (if s.currentStatus.isValid then [.roomStatus s.currentStatus] else []) ∧
      (s.currentStatus.isValid = true →
        (performFirmwareUpdate v (.failed err) s).2.1.screen =
          .roomStatus s.currentStatus)) := by
  refine ⟨?_, ?_, ?_, ?_⟩
  · intro ver hver
    by_cases ha : r.updateAvailable = true ∧ r.firmware.isValid = true
    · refine ⟨ha.1, ha.2, ?_⟩
      simp [checkForFirmwareUpdate, ha.1, ha.2] at hver
      exact hver.symm
    · exfalso
      rcases Decidable.not_and_iff_or_not.mp ha with hn | hn <;>
        simp [checkForFirmwareUpdate, Bool.not_eq_true _ ▸ hn] at hver
  · exact fun hfw => parseFirmwareCheck_valid_imp cfg o hfw
  · constructor
    · rfl
    · rfl
  · refine ⟨?_, ?_, ?_⟩
    · cases hv : s.currentStatus.isValid <;>
        simp [performFirmwareUpdate, hv]
    · cases hv : s.currentStatus.isValid <;>
        simp [performFirmwareUpdate, hv]
    · intro hv
      simp [performFirmwareUpdate, hv]

/-- C7 witness: a successful update at a concrete state restarts; a failed
update does not restart and falls back to the last valid status screen. -/
theorem c7_firmware_update_flow_witness :
    (performFirmwareUpdate "1.2.0" .ok initState).2.2 = true ∧
    (performFirmwareUpdate "1.2.0" (.failed "stream error")
      { initState with currentStatus := validStatusEx }).2.2 = false ∧
    (performFirmwareUpdate "1.2.0" (.failed "stream error")
      { initState with currentStatus := validStatusEx }).2.1.screen =
      .roomStatus validStatusEx :=
  ⟨(c7_firmware_update_flow
      { updateAvailable := true, currentVersion := "1.0.0",
        latestVersion := "1.2.0",
        firmware := { id := "f1", version := "1.2.0", size := 4, checksum := "",
                      releaseNotes := "", isValid := true } }
      testCfg .transportError "1.2.0" "stream error" initState).2.2.1.1,
   (c7_firmware_update_flow
      { updateAvailable := true, currentVersion := "1.0.0",
        latestVersion := "1.2.0",
        firmware := { id := "f1", version := "1.2.0", size := 4, checksum := "",
                      releaseNotes := "", isValid := true } }
      testCfg .transportError "1.2.0" "stream error"
      { initState with currentStatus := validStatusEx }).2.2.2.1,
   (c7_firmware_update_flow
      { updateAvailable := true, currentVersion := "1.0.0",
        latestVersion := "1.2.0",
        firmware := { id := "f1", version := "1.2.0", size := 4, checksum := "",
                      releaseNotes := "", isValid := true } }
      testCfg .transportError "1.2.0" "stream error"
      { initState with currentStatus := validStatusEx }).2.2.2.2.2 rfl⟩

/-! ### C8 — touch debounce and screen wake -/

/-- C8: a touch within the fixed 300 ms debounce window after the last
accepted touch only re-arms the activity timer and dispatches no button
action; a touch while the backlight is off only wakes the screen (redrawing
the last valid status), re-arms the activity timer and the debounce clock,
and is never interpreted as a button press. -/
theorem c8_handleTouch_debounce_wake (touchX touchY : Int) (now : Nat)
    (s : MainState) :
    (s.screenOn = true → now - s.lastTouchTime < 300 →
      handleTouch (some (touchX, touchY)) now s =
        ({ s with lastActivityTime := now }, none)) ∧
    (s.screenOn = false →
      handleTouch (some (touchX, touchY)) now s =
        ({ s with
            screenOn := true,
            screen := if s.currentStatus.isValid then .roomStatus s.currentStatus
                      else s.screen,
            lastActivityTime := now,
            lastTouchTime := now }, none)) := by
  constructor
  · intro hon hdeb
    simp [handleTouch, hon, hdeb]
  · intro hoff
    simp only [handleTouch, hoff, Bool.not_false, if_true]
    by_cases hv : s.currentStatus.isValid = true
    · simp [wakeScreen, hoff, hv]
    · simp only [Bool.not_eq_true] at hv
      simp [wakeScreen, hoff, hv]

/-- C8 witness: the theorem applied at a concrete debounced touch and a
concrete touch on a dark screen. -/
theorem c8_handleTouch_debounce_wake_witness :
    handleTouch (some (100, 100)) 4100
      { initState with screenOn := true, lastTouchTime := 4000 } =
      ({ initState with
          screenOn := true,
          lastTouchTime := 4000,
          lastActivityTime := 4100 }, none) ∧
    handleTouch (some (100, 100)) 9000
      { initState with screenOn := false, lastTouchTime := 4000 } =
      ({ initState with
          screenOn := true,
          screen := initState.screen,
          lastActivityTime := 9000,
          lastTouchTime := 9000 }, none) :=
  ⟨by
    have h := (c8_handleTouch_debounce_wake 100 100 4100
      { initState with screenOn := true, lastTouchTime := 4000 }).1 rfl (by decide)
    simpa using h,
   by
    have h := (c8_handleTouch_debounce_wake 100 100 9000
      { initState with screenOn := false, lastTouchTime := 4000 }).2 rfl
    simpa using h⟩

/-! ### C9 — WiFi-down reconnection policy -/

/-- C9: while WiFi is down the loop never polls status, pings, or checks
firmware; it restarts the device exactly when the connection has been lost
for more than 60 s; a (non-initial) reconnection attempt happens exactly
when fewer than 5 attempts were made and the 10 s-spaced checkpoint from
the recorded loss time has passed, and it increments the attempt counter,
so at most 5 spaced attempts ever run. -/
theorem c9_wifi_down_policy (now : Nat) (s : MainState) :
    (LoopAction.pollStatus ∉ (loopStep now false s).1 ∧
     LoopAction.pingServer ∉ (loopStep now false s).1 ∧
     LoopAction.firmwareCheck ∉ (loopStep now false s).1) ∧
    (LoopAction.deviceRestart ∈ (loopStep now false s).1 ↔
      (s.wifiConnected = false ∧ now - s.wifiLostTime > 60000)) ∧
    (s.wifiConnected = false →
      (LoopAction.wifiReconnect ∈ (loopStep now false s).1 ↔
        (¬ now - s.wifiLostTime > 60000 ∧ s.wifiRetryCount < 5 ∧
         now - s.wifiLostTime > (s.wifiRetryCount + 1) * 10000))) ∧
    (s.wifiConnected = false →
      LoopAction.wifiReconnect ∈ (loopStep now false s).1 →
      (loopStep now false s).2.wifiRetryCount = s.wifiRetryCount + 1) ∧
    (s.wifiConnected = false → s.wifiRetryCount ≥ 5 →
      LoopAction.wifiReconnect ∉ (loopStep now false s).1) := by
  by_cases hweb : s.webServerRunning = true <;>
    by_cases hc : s.wifiConnected = true <;>
    by_cases h60 : now - s.wifiLostTime > 60000 <;>
    by_cases hr5 : s.wifiRetryCount < 5 <;>
    by_cases h10 : now - s.wifiLostTime > (s.wifiRetryCount + 1) * 10000 <;>
    simp [loopStep, hweb, hc, h60, hr5, h10]

/-- C9 witness: a device disconnected for 25 s with one attempt made runs
its second spaced reconnection attempt, and one disconnected for 61 s
restarts. -/
theorem c9_wifi_down_policy_witness :
    (LoopAction.wifiReconnect ∈
      (loopStep 25000 false
        { initState with
          wifiConnected := false,
          wifiLostTime := 0,
          wifiRetryCount := 1 } |>.1)) ∧
    (LoopAction.deviceRestart ∈
      (loopStep 61001 false
        { initState with wifiConnected := false, wifiLostTime := 0 } |>.1)) :=
  ⟨((c9_wifi_down_policy 25000
      { initState with
        wifiConnected := false,
        wifiLostTime := 0,
        wifiRetryCount := 1 }).2.2.1 rfl).mpr
      ⟨by decide, by decide, by decide⟩,
   ((c9_wifi_down_policy 61001
      { initState with wifiConnected := false, wifiLostTime := 0 }).2.1).mpr
      ⟨rfl, by decide⟩⟩
